
import Mathlib

/-!
Verification development for the vault-init-aws-raft sidecar (src/main.go).

The Go program is a polling control loop that drives a HashiCorp Vault
replica through bootstrap: health check, initialize (leader), raft join
(follower), unseal, with the bootstrap credential bundle persisted in an
AWS Secrets Manager secret.

We shallow-embed the program as pure Lean functions over an `Env` that
records the responses the external collaborators (Vault API, Secrets
Manager, filesystem, HOSTNAME) would give.  Every operation returns the
ordered trace of externally visible actions it performs together with an
`Outcome` describing how the Go function ended (normal return, returned
error, runtime panic, fatal exit, or an unbounded retry loop that is
still running when the supplied response list is exhausted).
-/

namespace VaultInit

/-- Vault health response, `api.HealthResponse` fields read by the core
(`Initialized`, `Sealed`). -/
structure HealthResponse where
  initialized : Bool
  sealed : Bool
deriving DecidableEq, Repr

/-- `api.InitResponse`: the Bootstrap Credential Bundle returned by the
initialize call, with its five exported JSON-tagged fields. -/
structure InitResponse where
  keys : List String
  keysB64 : List String
  recoveryKeys : List String
  recoveryKeysB64 : List String
  rootToken : String
deriving DecidableEq, Repr

/-- `api.RaftJoinResponse`: only the `Joined` flag is read. -/
structure RaftJoinResponse where
  joined : Bool
deriving DecidableEq, Repr

/-- `api.SealStatusResponse`: only `Progress` is read by the unseal loop.
Go declares it as `int`, so we use `Int`. -/
structure SealStatus where
  progress : Int
deriving DecidableEq, Repr

/-- `secretsmanager.UpdateSecretOutput`: the fields dereferenced by the
code (`ARN`, `VersionId`). -/
structure UpdateSecretOutput where
  arn : String
  versionId : String
deriving DecidableEq, Repr

/-- JSON values that can appear as a field of a serialized
`InitResponse`: a string or an array of strings.  This is the exact value
shape `encoding/json` produces for the five exported fields. -/
inductive JVal where
  | str (s : String)
  | arrStr (xs : List String)
deriving DecidableEq, Repr

/-- A payload stored in the Secrets Manager secret: either a JSON object
with string / string-array fields (the shape `json.Marshal` produces for
an `InitResponse`), or any other payload, which `json.Unmarshal` into an
`InitResponse` rejects. -/
inductive SecretValue where
  | jsonObj (fields : List (String × JVal))
  | other (raw : String)
deriving DecidableEq, Repr

/-- First binding of a key in a JSON object, as field lookup. -/
def jLookup (fields : List (String × JVal)) (k : String) : Option JVal :=
  (fields.find? (fun p => p.1 == k)).map (fun p => p.2)

/-- Decode an optional JSON field as a string; a missing field yields the
Go zero value `""`. -/
def jGetStr (fields : List (String × JVal)) (k : String) : Except String String :=
  match jLookup fields k with
  | none => .ok ""
  | some (.str s) => .ok s
  | some (.arrStr _) => .error ("cannot unmarshal array into string field " ++ k)

/-- Decode an optional JSON field as a string array; a missing field
yields the Go zero value (nil slice, modelled as `[]`). -/
def jGetStrList (fields : List (String × JVal)) (k : String) : Except String (List String) :=
  match jLookup fields k with
  | none => .ok []
  | some (.arrStr xs) => .ok xs
  | some (.str _) => .error ("cannot unmarshal string into array field " ++ k)

/-- `json.Marshal` of an `api.InitResponse`, at the JSON-value level:
an object with the five tagged fields. -/
def marshalInitResponse (r : InitResponse) : SecretValue :=
  .jsonObj [("keys", .arrStr r.keys),
            ("keys_base64", .arrStr r.keysB64),
            ("recovery_keys", .arrStr r.recoveryKeys),
            ("recovery_keys_b64", .arrStr r.recoveryKeysB64),
            ("root_token", .str r.rootToken)]

/-- `json.Unmarshal` of a stored payload into an `api.InitResponse`:
the payload must be a JSON object; each tagged field is decoded when
present and defaults to the Go zero value when absent. -/
def unmarshalInitResponse : SecretValue → Except String InitResponse
  | .other _ => .error "invalid JSON for InitResponse"
  | .jsonObj fields => do
      let keys ← jGetStrList fields "keys"
      let keysB64 ← jGetStrList fields "keys_base64"
      let recoveryKeys ← jGetStrList fields "recovery_keys"
      let recoveryKeysB64 ← jGetStrList fields "recovery_keys_b64"
      let rootToken ← jGetStr fields "root_token"
      return ⟨keys, keysB64, recoveryKeys, recoveryKeysB64, rootToken⟩

/-- UTF-8 encoding of one character, as the list of its byte values.
Go strings are byte strings; `hostname[i]` indexes bytes. -/
def charUtf8Bytes (c : Char) : List Nat :=
  let n := c.toNat
  if n < 128 then [n]
  else if n < 2048 then [192 + n / 64, 128 + n % 64]
  else if n < 65536 then [224 + n / 4096, 128 + (n / 64) % 64, 128 + n % 64]
  else [240 + n / 262144, 128 + (n / 4096) % 64, 128 + (n / 64) % 64, 128 + n % 64]

/-- The bytes of a string under UTF-8, Go's representation. -/
def stringBytes (s : String) : List Nat :=
  s.data.flatMap charUtf8Bytes

/-- The last byte of a Go string, `s[len(s)-1]`; `none` models the
index-out-of-range panic on the empty string. -/
def lastByte (s : String) : Option Nat :=
  (stringBytes s).getLast?

/-- Configuration read through viper; fixed for the process lifetime. -/
structure Config where
  secretsManagerSecretID : String
  vaultSecretShares : Nat
  vaultSecretThreshold : Nat
  raftLeaderAPIAddr : String
  raftLeaderCACert : String
  raftLeaderClientCert : String
  raftLeaderClientKey : String

/-- Responses of the external collaborators during one poll tick.
`unsealResults i` is the response to the i-th unseal-shard call of the
tick; `putResults` are the successive outcomes of UpdateSecret attempts
inside the initialize retry loop; `files` is the filesystem read by
`parseEnvFile`. -/
structure Env where
  config : Config
  hostname : String
  files : String → Option String
  healthResult : Except String HealthResponse
  initResult : Except String InitResponse
  joinResult : Except String RaftJoinResponse
  unsealResults : Nat → Except String SealStatus
  describeResult : Except String String
  getSecretResult : Except String (Option SecretValue)
  putResults : List (Except String UpdateSecretOutput)

/-- One externally visible action of the program: a remote call, a log
line, or a sleep. -/
inductive Action where
  | healthCall
  | initCall (shares threshold : Nat)
  | joinCall (leaderAddr caCert clientCert clientKey : String)
  | unsealCall (key : String)
  | putCall (secretId : String) (value : SecretValue)
  | getCall (secretId : String)
  | describeCall (secretId : String)
  | log (msg : String)
  | logError (msg : String)
  | sleep (seconds : Nat)
deriving DecidableEq, Repr

/-- How a Go function ended: normal return, returned error, runtime
panic, `log.Fatal` exit, or an unbounded retry loop that had not yet
returned when the supplied list of responses ran out. -/
inductive Outcome where
  | ok
  | err (msg : String)
  | panicked (msg : String)
  | fatal (msg : String)
  | incomplete
deriving DecidableEq, Repr

instance {ε α : Type} [DecidableEq ε] [DecidableEq α] : DecidableEq (Except ε α) := fun x y =>
  match x, y with
  | .ok a, .ok b =>
    if h : a = b then .isTrue (by rw [h]) else .isFalse (by intro hc; cases hc; exact h rfl)
  | .error a, .error b =>
    if h : a = b then .isTrue (by rw [h]) else .isFalse (by intro hc; cases hc; exact h rfl)
  | .ok _, .error _ => .isFalse (by intro hc; cases hc)
  | .error _, .ok _ => .isFalse (by intro hc; cases hc)

/-- `errors.Wrap`: prefix a returned error message, leaving the other
ways a function can end untouched. -/
def wrapErr (pre : String) : Outcome → Outcome
  | .err m => .err (pre ++ m)
  | o => o

/-- `parseEnvFile`: returns the string unchanged unless it starts with
the marker character, in which case the named file is read; a failing
read panics (modelled as `.error`). -/
def parseEnvFile (files : String → Option String) (raw : String) : Except String String :=
  if raw.isEmpty then .ok raw
  else if raw.front ≠ '@' then .ok raw
  else
    match files (raw.drop 1) with
    | some contents => .ok contents
    | none => .error ("read file " ++ raw.drop 1)

/-- `checkSecretExistence`: DescribeSecret on the configured secret id;
an error is wrapped, success logs the ARN. -/
def checkSecretExistence (env : Env) : List Action × Outcome :=
  match env.describeResult with
  | .error e => ([.describeCall env.config.secretsManagerSecretID], .err ("describe secret: " ++ e))
  | .ok _ => ([.describeCall env.config.secretsManagerSecretID, .log "Secret exists"], .ok)

/-- The `for` retry loop inside `initialize`: attempt UpdateSecret; on
success log and break; on failure log the error, sleep 3 seconds and
retry.  The loop is unbounded in Go; recursing over the finite list of
supplied outcomes, exhaustion means the loop is still retrying
(`Outcome.incomplete`). -/
def updateSecretLoop (sid : String) (v : SecretValue) :
    List (Except String UpdateSecretOutput) → List Action × Outcome
  | [] => ([], .incomplete)
  | .ok _ :: _ => ([.putCall sid v, .log "Updated secret"], .ok)
  | .error _ :: rest =>
    (.putCall sid v :: .logError "Cannot update secret" :: .sleep 3 ::
      (updateSecretLoop sid v rest).1,
     (updateSecretLoop sid v rest).2)

/-- `initialize` (Go function `initialize`): call Init with the
configured shares/threshold; on success marshal the bundle and write it
to the secret with the unbounded retry loop, then return nil. -/
def initializeVault (env : Env) : List Action × Outcome :=
  match env.initResult with
  | .error e =>
    ([.log "Initializing vault server...",
      .initCall env.config.vaultSecretShares env.config.vaultSecretThreshold],
     .err ("init vault: " ++ e))
  | .ok ir =>
    if (updateSecretLoop env.config.secretsManagerSecretID (marshalInitResponse ir)
        env.putResults).2 = .ok then
      ([.log "Initializing vault server...",
        .initCall env.config.vaultSecretShares env.config.vaultSecretThreshold,
        .log "Vault server initialized successfully, uploading result to AWS..."]
        ++ (updateSecretLoop env.config.secretsManagerSecretID (marshalInitResponse ir)
            env.putResults).1
        ++ [.log "Initialization process completed"], .ok)
    else
      ([.log "Initializing vault server...",
        .initCall env.config.vaultSecretShares env.config.vaultSecretThreshold,
        .log "Vault server initialized successfully, uploading result to AWS..."]
        ++ (updateSecretLoop env.config.secretsManagerSecretID (marshalInitResponse ir)
            env.putResults).1,
       (updateSecretLoop env.config.secretsManagerSecretID (marshalInitResponse ir)
          env.putResults).2)

/-- `joinRaftCluster`: resolve the three TLS options through
`parseEnvFile` (a failing file read panics), issue the raft join call,
and treat a response with `Joined == false` as an error even though the
call itself succeeded. -/
def joinRaftCluster (env : Env) : List Action × Outcome :=
  match parseEnvFile env.files env.config.raftLeaderCACert with
  | .error m => ([.log "Joining RAFT cluster..."], .panicked m)
  | .ok ca =>
    match parseEnvFile env.files env.config.raftLeaderClientCert with
    | .error m => ([.log "Joining RAFT cluster..."], .panicked m)
    | .ok cert =>
      match parseEnvFile env.files env.config.raftLeaderClientKey with
      | .error m => ([.log "Joining RAFT cluster..."], .panicked m)
      | .ok key =>
        match env.joinResult with
        | .error e =>
          ([.log "Joining RAFT cluster...",
            .joinCall env.config.raftLeaderAPIAddr ca cert key], .err e)
        | .ok r =>
          if r.joined then
            ([.log "Joining RAFT cluster...",
              .joinCall env.config.raftLeaderAPIAddr ca cert key,
              .log "Joined RAFT cluster successfully"], .ok)
          else
            ([.log "Joining RAFT cluster...",
              .joinCall env.config.raftLeaderAPIAddr ca cert key],
             .err "could not join")

/-- The `for i, key := range initResponse.KeysB64` loop of `unseal`:
submit shares in stored order; a shard error aborts with a wrapped
error; after each successful call the progress is logged and the loop
breaks once progress is non-positive. -/
def unsealLoop (oracle : Nat → Except String SealStatus) :
    List String → Nat → List Action × Outcome
  | [], _ => ([], .ok)
  | key :: rest, i =>
    match oracle i with
    | .error e => ([.unsealCall key], .err ("unseal shard " ++ toString i ++ ": " ++ e))
    | .ok st =>
      if st.progress ≤ 0 then ([.unsealCall key, .log "Unseal"], .ok)
      else
        (.unsealCall key :: .log "Unseal" :: (unsealLoop oracle rest (i + 1)).1,
         (unsealLoop oracle rest (i + 1)).2)

/-- `unseal`: fetch the stored bundle, deserialize it (a nil
SecretString pointer would panic; a decode failure is a returned error),
then run the shard submission loop and log success. -/
def unsealVault (env : Env) : List Action × Outcome :=
  match env.getSecretResult with
  | .error e =>
    ([.log "Fetching unseal keys...", .getCall env.config.secretsManagerSecretID],
     .err ("get AWS secret: " ++ e))
  | .ok none =>
    ([.log "Fetching unseal keys...", .getCall env.config.secretsManagerSecretID],
     .panicked "nil SecretString")
  | .ok (some v) =>
    match unmarshalInitResponse v with
    | .error e =>
      ([.log "Fetching unseal keys...", .getCall env.config.secretsManagerSecretID],
       .err ("unmarshal: " ++ e))
    | .ok ir =>
      if (unsealLoop env.unsealResults ir.keysB64 0).2 = .ok then
        ([.log "Fetching unseal keys...", .getCall env.config.secretsManagerSecretID,
          .log "Unseal keys received, unsealing vault server..."]
          ++ (unsealLoop env.unsealResults ir.keysB64 0).1
          ++ [.log "Vault server unsealed successfully"], .ok)
      else
        ([.log "Fetching unseal keys...", .getCall env.config.secretsManagerSecretID,
          .log "Unseal keys received, unsealing vault server..."]
          ++ (unsealLoop env.unsealResults ir.keysB64 0).1,
         (unsealLoop env.unsealResults ir.keysB64 0).2)

/-- The `if !healthResponse.Initialized` block of `checkVaultStatus`:
resolve the replica ordinal from the last byte of HOSTNAME minus 48
(panicking on an empty hostname) and dispatch to initialize (ordinal 0)
or raft join (any other ordinal), wrapping returned errors. -/
def uninitStep (env : Env) (h : HealthResponse) : List Action × Outcome :=
  if h.initialized then ([], .ok)
  else
    match lastByte env.hostname with
    | none => ([], .panicked "index out of range")
    | some b =>
      if ((b : Int) - 48 : Int) = 0 then
        (.log "Vault replica" :: (initializeVault env).1,
         wrapErr "initialize: " (initializeVault env).2)
      else
        (.log "Vault replica" :: (joinRaftCluster env).1,
         wrapErr "raft join: " (joinRaftCluster env).2)

/-- The `if healthResponse.Sealed` block of `checkVaultStatus`: run
unseal against the snapshot taken at the top of the tick, wrapping a
returned error. -/
def sealedStep (env : Env) (h : HealthResponse) : List Action × Outcome :=
  if h.sealed then
    ((unsealVault env).1, wrapErr "unseal: " (unsealVault env).2)
  else ([], .ok)

/-- `checkVaultStatus`, one poll tick: take a Health Snapshot; in steady
state (initialized and not sealed) do nothing; otherwise run the
uninitialized branch and then, still against the same snapshot, the
sealed branch. -/
def checkVaultStatus (env : Env) : List Action × Outcome :=
  match env.healthResult with
  | .error e => ([.log "Checking vault status", .healthCall], .err ("read health: " ++ e))
  | .ok h =>
    if h.initialized && !h.sealed then
      ([.log "Checking vault status", .healthCall, .log "Got vault status",
        .log "Nothing to do"], .ok)
    else
      if (uninitStep env h).2 = .ok then
        ([.log "Checking vault status", .healthCall, .log "Got vault status"]
          ++ (uninitStep env h).1 ++ (sealedStep env h).1, (sealedStep env h).2)
      else
        ([.log "Checking vault status", .healthCall, .log "Got vault status"]
          ++ (uninitStep env h).1, (uninitStep env h).2)

/-- Trace of n consecutive ticks against an unchanged environment. -/
def runTicks (env : Env) : Nat → List Action
  | 0 => []
  | n + 1 => (checkVaultStatus env).1 ++ runTicks env n

/-- `main` after client construction: the secret existence check runs
before any tick; a failure is `log.Fatalf` (the process exits, no tick
ever runs); otherwise the tick loop runs (one immediate check plus the
ticker), each tick's error only being logged.  The `.ok` outcome means
the process reached the loop. -/
def runMain (env : Env) (n : Nat) : List Action × Outcome :=
  match env.describeResult with
  | .error e =>
    ((checkSecretExistence env).1, .fatal ("Checking secret existence: describe secret: " ++ e))
  | .ok _ => ((checkSecretExistence env).1 ++ runTicks env (n + 1), .ok)

/-- Remote calls that mutate external state: initialize, raft join,
unseal-shard, and the secret write. -/
def Action.isMutating : Action → Bool
  | .initCall _ _ => true
  | .joinCall _ _ _ _ => true
  | .unsealCall _ => true
  | .putCall _ _ => true
  | _ => false

def Action.isInitCall : Action → Bool
  | .initCall _ _ => true
  | _ => false

def Action.isJoinCall : Action → Bool
  | .joinCall _ _ _ _ => true
  | _ => false

def Action.isUnsealCall : Action → Bool
  | .unsealCall _ => true
  | _ => false

def Action.isPutCall : Action → Bool
  | .putCall _ _ => true
  | _ => false

def Action.isSleep3 : Action → Bool
  | .sleep s => s == 3
  | _ => false

def Action.isCannotUpdateLog : Action → Bool
  | .logError m => m == "Cannot update secret"
  | _ => false

/-- Is this action the given log line? -/
def Action.isLog (msg : String) : Action → Bool
  | .log m => m == msg
  | _ => false

/-- The trace contains the given log line. -/
def hasLog (msg : String) (tr : List Action) : Bool :=
  tr.any (Action.isLog msg)

def hasInitCall (tr : List Action) : Bool := tr.any Action.isInitCall

def hasJoinCall (tr : List Action) : Bool := tr.any Action.isJoinCall

def hasUnsealCall (tr : List Action) : Bool := tr.any Action.isUnsealCall

/-- The uninitialized branch entered its join path (first line
`joinRaftCluster` logs). -/
def joinEntered (tr : List Action) : Bool := hasLog "Joining RAFT cluster..." tr

/-- The uninitialized branch entered its initialize path. -/
def initEntered (tr : List Action) : Bool := hasLog "Initializing vault server..." tr

/-- The tick entered `unseal` (its first log line). -/
def unsealEntered (tr : List Action) : Bool := hasLog "Fetching unseal keys..." tr

/-- The keys submitted to unseal-shard calls, in submission order. -/
def submittedKeys (tr : List Action) : List String :=
  tr.filterMap fun a => match a with | .unsealCall key => some key | _ => none

/-! Concrete sample environments used by the witness theorems -/

def c2Env : Env :=
  ⟨⟨"vault-keys", 5, 3, "", "", "", ""⟩, "vault-0", fun _ => none,
   .ok ⟨true, false⟩, .error "off", .error "off", fun _ => .error "off",
   .ok "arn", .error "off", []⟩

def c4Env : Env :=
  ⟨⟨"vault-keys", 5, 3, "http://vault-0.vault.svc", "", "", ""⟩, "vault-2", fun _ => none,
   .ok ⟨false, true⟩, .error "off", .ok ⟨false⟩, fun _ => .error "off",
   .ok "arn", .error "off", []⟩

def c6Env : Env :=
  ⟨⟨"vault-keys", 5, 3, "", "", "", ""⟩, "vault-0", fun _ => none,
   .ok ⟨false, true⟩, .error "off", .error "off", fun _ => .error "off",
   .error "AccessDeniedException", .error "off", []⟩

def c10Env : Env :=
  ⟨⟨"vault-keys", 5, 3, "", "", "", ""⟩, "vault-1", fun _ => none,
   .ok ⟨true, true⟩, .error "off", .error "off", fun _ => .error "off",
   .ok "arn", .ok (some (.jsonObj [("root_token", .str "tok")])), []⟩

def c8IR : InitResponse :=
  ⟨["k1", "k2", "k3", "k4", "k5"], ["b1", "b2", "b3", "b4", "b5"], [], [], "root-token"⟩

def c8Env : Env :=
  ⟨⟨"vault-keys", 5, 3, "", "", "", ""⟩, "vault-0", fun _ => none,
   .ok ⟨false, true⟩, .ok c8IR, .error "off", fun _ => .error "off",
   .ok "arn", .error "off", [.ok ⟨"arn", "v1"⟩]⟩

def c1Env : Env :=
  ⟨⟨"vault-keys", 5, 3, "", "", "", ""⟩, "vault-0", fun _ => none,
   .ok ⟨false, false⟩, .error "connection refused", .error "off", fun _ => .error "off",
   .ok "arn", .error "off", []⟩

def c9Env : Env :=
  ⟨⟨"vault-keys", 5, 3, "", "", "", ""⟩, "", fun _ => none,
   .ok ⟨false, true⟩, .error "off", .error "off", fun _ => .error "off",
   .ok "arn", .error "off", []⟩

def c7IR : InitResponse := ⟨["k1"], ["b1"], [], [], "tok"⟩

def c7Env : Env :=
  ⟨⟨"vault-keys", 5, 3, "", "", "", ""⟩, "vault-0", fun _ => none,
   .ok ⟨false, true⟩, .ok c7IR, .error "off", fun _ => .error "off",
   .ok "arn", .error "GetDenied", [.ok ⟨"arn", "v1"⟩]⟩

def c3IR : InitResponse := ⟨[], ["b1", "b2", "b3", "b4", "b5"], [], [], "root"⟩

def c3Env : Env :=
  ⟨⟨"vault-keys", 5, 3, "", "", "", ""⟩, "vault-1", fun _ => none,
   .ok ⟨true, true⟩, .error "off", .error "off",
   fun i => .ok ⟨2 - (i : Int)⟩, .ok "arn", .ok (some (marshalInitResponse c3IR)), []⟩

def c5IR : InitResponse := ⟨["k1"], ["b1", "b2", "b3", "b4", "b5"], [], [], "tok"⟩

def c5Env : Env :=
  ⟨⟨"vault-keys", 5, 3, "", "", "", ""⟩, "vault-0", fun _ => none,
   .ok ⟨false, true⟩, .ok c5IR, .error "off", fun _ => .error "off",
   .ok "arn", .error "off",
   [.error "Denied", .error "Denied", .ok ⟨"arn", "v3"⟩]⟩

/-! Trace shape lemmas -/


theorem mem_updateSecretLoop {sid : String} {v : SecretValue}
    {outs : List (Except String UpdateSecretOutput)} {a : Action}
    (h : a ∈ (updateSecretLoop sid v outs).1) :
    a = .putCall sid v ∨ a = .log "Updated secret" ∨
    a = .logError "Cannot update secret" ∨ a = .sleep 3 := by
  induction outs with
  | nil => simp [updateSecretLoop] at h
  | cons o rest ih =>
    cases o with
    | ok u => simp [updateSecretLoop] at h; tauto
    | error e =>
      simp [updateSecretLoop] at h
      rcases h with h | h | h | h
      · tauto
      · tauto
      · tauto
      · exact ih h

theorem mem_unsealLoop {oracle : Nat → Except String SealStatus}
    {keys : List String} {i : Nat} {a : Action}
    (h : a ∈ (unsealLoop oracle keys i).1) :
    (∃ k, a = .unsealCall k) ∨ a = .log "Unseal" := by
  induction keys generalizing i with
  | nil => simp [unsealLoop] at h
  | cons key rest ih =>
    cases ho : oracle i with
    | error e =>
      simp [unsealLoop, ho] at h
      exact Or.inl ⟨key, h⟩
    | ok st =>
      by_cases hp : st.progress ≤ 0
      · simp [unsealLoop, ho, hp] at h
        rcases h with h | h
        exacts [Or.inl ⟨key, h⟩, Or.inr h]
      · simp [unsealLoop, ho, hp] at h
        rcases h with h | h | h
        exacts [Or.inl ⟨key, h⟩, Or.inr h, ih h]

theorem mem_initializeVault {env : Env} {a : Action}
    (h : a ∈ (initializeVault env).1) :
    a = .log "Initializing vault server..." ∨
    a = .initCall env.config.vaultSecretShares env.config.vaultSecretThreshold ∨
    a = .log "Vault server initialized successfully, uploading result to AWS..." ∨
    (∃ v, a = .putCall env.config.secretsManagerSecretID v) ∨
    a = .log "Updated secret" ∨ a = .logError "Cannot update secret" ∨ a = .sleep 3 ∨
    a = .log "Initialization process completed" := by
  cases hi : env.initResult with
  | error e => simp [initializeVault, hi] at h; tauto
  | ok ir =>
    by_cases hl : (updateSecretLoop env.config.secretsManagerSecretID
        (marshalInitResponse ir) env.putResults).2 = .ok
    · simp [initializeVault, hi, hl] at h
      rcases h with h | h | h | h | h
      · tauto
      · tauto
      · tauto
      · rcases mem_updateSecretLoop h with h | h | h | h
        · exact Or.inr (Or.inr (Or.inr (Or.inl ⟨_, h⟩)))
        · tauto
        · tauto
        · tauto
      · tauto
    · simp [initializeVault, hi, hl] at h
      rcases h with h | h | h | h
      · tauto
      · tauto
      · tauto
      · rcases mem_updateSecretLoop h with h | h | h | h
        · exact Or.inr (Or.inr (Or.inr (Or.inl ⟨_, h⟩)))
        · tauto
        · tauto
        · tauto

theorem mem_joinRaftCluster {env : Env} {a : Action}
    (h : a ∈ (joinRaftCluster env).1) :
    a = .log "Joining RAFT cluster..." ∨
    (∃ la ca c k, a = .joinCall la ca c k) ∨
    a = .log "Joined RAFT cluster successfully" := by
  cases hca : parseEnvFile env.files env.config.raftLeaderCACert with
  | error m => simp [joinRaftCluster, hca] at h; tauto
  | ok ca =>
    cases hcc : parseEnvFile env.files env.config.raftLeaderClientCert with
    | error m => simp [joinRaftCluster, hca, hcc] at h; tauto
    | ok cert =>
      cases hck : parseEnvFile env.files env.config.raftLeaderClientKey with
      | error m => simp [joinRaftCluster, hca, hcc, hck] at h; tauto
      | ok key =>
        cases hj : env.joinResult with
        | error e =>
          simp [joinRaftCluster, hca, hcc, hck, hj] at h
          rcases h with h | h
          · tauto
          · exact Or.inr (Or.inl ⟨_, _, _, _, h⟩)
        | ok r =>
          by_cases hjo : r.joined
          · simp [joinRaftCluster, hca, hcc, hck, hj, hjo] at h
            rcases h with h | h | h
            · tauto
            · exact Or.inr (Or.inl ⟨_, _, _, _, h⟩)
            · tauto
          · simp [joinRaftCluster, hca, hcc, hck, hj, hjo] at h
            rcases h with h | h
            · tauto
            · exact Or.inr (Or.inl ⟨_, _, _, _, h⟩)

theorem mem_unsealVault {env : Env} {a : Action}
    (h : a ∈ (unsealVault env).1) :
    a = .log "Fetching unseal keys..." ∨
    a = .getCall env.config.secretsManagerSecretID ∨
    a = .log "Unseal keys received, unsealing vault server..." ∨
    (∃ k, a = .unsealCall k) ∨ a = .log "Unseal" ∨
    a = .log "Vault server unsealed successfully" := by
  cases hg : env.getSecretResult with
  | error e => simp [unsealVault, hg] at h; tauto
  | ok ov =>
    cases ov with
    | none => simp [unsealVault, hg] at h; tauto
    | some v =>
      cases hu : unmarshalInitResponse v with
      | error e => simp [unsealVault, hg, hu] at h; tauto
      | ok ir =>
        by_cases hl : (unsealLoop env.unsealResults ir.keysB64 0).2 = .ok
        · simp [unsealVault, hg, hu, hl] at h
          rcases h with h | h | h | h | h
          · tauto
          · tauto
          · tauto
          · rcases mem_unsealLoop h with h | h <;> tauto
          · tauto
        · simp [unsealVault, hg, hu, hl] at h
          rcases h with h | h | h | h
          · tauto
          · tauto
          · tauto
          · rcases mem_unsealLoop h with h | h <;> tauto


theorem unsealLoop_spec :
    ∀ (k : Nat) (keys : List String) (i : Nat) (oracle : Nat → Except String SealStatus),
      k < keys.length →
      (∀ j, j < k → ∃ st, oracle (i + j) = .ok st ∧ 0 < st.progress) →
      (∃ st, oracle (i + k) = .ok st ∧ st.progress ≤ 0) →
      submittedKeys (unsealLoop oracle keys i).1 = keys.take (k + 1) ∧
      (unsealLoop oracle keys i).2 = .ok := by
  intro k
  induction k with
  | zero =>
    intro keys i oracle hk hpos hzero
    cases keys with
    | nil => simp at hk
    | cons key rest =>
      rcases hzero with ⟨st, ho, hle⟩
      rw [Nat.add_zero] at ho
      simp [unsealLoop, ho, hle, submittedKeys]
  | succ k ih =>
    intro keys i oracle hk hpos hzero
    cases keys with
    | nil => simp at hk
    | cons key rest =>
      rcases hpos 0 (Nat.succ_pos k) with ⟨st, ho, hgt⟩
      rw [Nat.add_zero] at ho
      have hnle : ¬ st.progress ≤ 0 := by omega
      have ihr := ih rest (i + 1) oracle (by simpa using hk)
        (fun j hj => by
          have h2 := hpos (j + 1) (by omega)
          have he : i + (j + 1) = i + 1 + j := by omega
          rw [he] at h2
          exact h2)
        (by
          rcases hzero with ⟨st2, ho2, hle2⟩
          have he : i + (k + 1) = i + 1 + k := by omega
          rw [he] at ho2
          exact ⟨st2, ho2, hle2⟩)
      have ht : (unsealLoop oracle (key :: rest) i).1 =
          .unsealCall key :: .log "Unseal" :: (unsealLoop oracle rest (i + 1)).1 := by
        simp [unsealLoop, ho, hnle]
      have ho2 : (unsealLoop oracle (key :: rest) i).2 =
          (unsealLoop oracle rest (i + 1)).2 := by
        simp [unsealLoop, ho, hnle]
      refine ⟨?_, by rw [ho2]; exact ihr.2⟩
      rw [ht]
      have h1 := ihr.1
      simp only [submittedKeys, List.filterMap_cons] at h1 ⊢
      simp [h1]

theorem updateSecretLoop_spec (sid : String) (v : SecretValue) (e : String)
    (u : UpdateSecretOutput) (rest : List (Except String UpdateSecretOutput)) :
    ∀ m : Nat,
      (updateSecretLoop sid v (List.replicate m (.error e) ++ .ok u :: rest)).2 = .ok ∧
      ((updateSecretLoop sid v (List.replicate m (.error e) ++ .ok u :: rest)).1.countP
        Action.isPutCall) = m + 1 ∧
      ((updateSecretLoop sid v (List.replicate m (.error e) ++ .ok u :: rest)).1.countP
        Action.isCannotUpdateLog) = m ∧
      ((updateSecretLoop sid v (List.replicate m (.error e) ++ .ok u :: rest)).1.countP
        Action.isSleep3) = m ∧
      hasLog "Updated secret" ((updateSecretLoop sid v
        (List.replicate m (.error e) ++ .ok u :: rest)).1) = true := by
  intro m
  induction m with
  | zero =>
    simp [updateSecretLoop, List.countP_cons, Action.isPutCall,
      Action.isCannotUpdateLog, Action.isSleep3, hasLog, Action.isLog]
  | succ m ih =>
    simp only [List.replicate_succ, List.cons_append, updateSecretLoop, List.countP_cons,
      hasLog, List.any_cons] at ih ⊢
    refine ⟨ih.1, ?_, ?_, ?_, ?_⟩
    · simp [Action.isPutCall, ih.2.1]
    · simp [Action.isPutCall, Action.isCannotUpdateLog, Action.isSleep3, ih.2.2.1]
    · simp [Action.isPutCall, Action.isCannotUpdateLog, Action.isSleep3, ih.2.2.2.1]
    · simp [Action.isLog, ih.2.2.2.2]

theorem initializeVault_hasInit (env : Env) :
    (initializeVault env).1.any Action.isInitCall = true := by
  cases hi : env.initResult with
  | error e => simp [initializeVault, hi, Action.isInitCall]
  | ok ir =>
    by_cases hl : (updateSecretLoop env.config.secretsManagerSecretID
        (marshalInitResponse ir) env.putResults).2 = .ok <;>
      simp [initializeVault, hi, hl, Action.isInitCall]

theorem joinRaftCluster_entered (env : Env) :
    (joinRaftCluster env).1.any (Action.isLog "Joining RAFT cluster...") = true := by
  cases hca : parseEnvFile env.files env.config.raftLeaderCACert with
  | error m => simp [joinRaftCluster, hca, Action.isLog]
  | ok ca =>
    cases hcc : parseEnvFile env.files env.config.raftLeaderClientCert with
    | error m => simp [joinRaftCluster, hca, hcc, Action.isLog]
    | ok cert =>
      cases hck : parseEnvFile env.files env.config.raftLeaderClientKey with
      | error m => simp [joinRaftCluster, hca, hcc, hck, Action.isLog]
      | ok key =>
        cases hj : env.joinResult with
        | error e2 => simp [joinRaftCluster, hca, hcc, hck, hj, Action.isLog]
        | ok r =>
          by_cases hjo : r.joined <;>
            simp [joinRaftCluster, hca, hcc, hck, hj, hjo, Action.isLog]

theorem unsealVault_entered (env : Env) :
    (unsealVault env).1.any (Action.isLog "Fetching unseal keys...") = true := by
  cases hg : env.getSecretResult with
  | error e => simp [unsealVault, hg, Action.isLog]
  | ok ov =>
    cases ov with
    | none => simp [unsealVault, hg, Action.isLog]
    | some v =>
      cases hu : unmarshalInitResponse v with
      | error e => simp [unsealVault, hg, hu, Action.isLog]
      | ok ir =>
        by_cases hl : (unsealLoop env.unsealResults ir.keysB64 0).2 = .ok <;>
          simp [unsealVault, hg, hu, hl, Action.isLog]

theorem initializeVault_noJoinCall (env : Env) :
    (initializeVault env).1.any Action.isJoinCall = false := by
  rw [List.any_eq_false]
  intro a ha
  rcases mem_initializeVault ha with h | h | h | ⟨v, h⟩ | h | h | h | h <;>
    subst h <;> simp [Action.isJoinCall]

theorem initializeVault_noJoinEntered (env : Env) :
    (initializeVault env).1.any (Action.isLog "Joining RAFT cluster...") = false := by
  rw [List.any_eq_false]
  intro a ha
  rcases mem_initializeVault ha with h | h | h | ⟨v, h⟩ | h | h | h | h <;>
    subst h <;> first | decide | simp [Action.isLog]

theorem joinRaftCluster_noInitCall (env : Env) :
    (joinRaftCluster env).1.any Action.isInitCall = false := by
  rw [List.any_eq_false]
  intro a ha
  rcases mem_joinRaftCluster ha with h | ⟨la, ca, c, k, h⟩ | h <;>
    subst h <;> first | decide | simp [Action.isInitCall]

theorem joinRaftCluster_noInitEntered (env : Env) :
    (joinRaftCluster env).1.any (Action.isLog "Initializing vault server...") = false := by
  rw [List.any_eq_false]
  intro a ha
  rcases mem_joinRaftCluster ha with h | ⟨la, ca, c, k, h⟩ | h <;>
    subst h <;> first | decide | simp [Action.isLog]

theorem unsealVault_noInitCall (env : Env) :
    (unsealVault env).1.any Action.isInitCall = false := by
  rw [List.any_eq_false]
  intro a ha
  rcases mem_unsealVault ha with h | h | h | ⟨k, h⟩ | h | h <;>
    subst h <;> first | decide | simp [Action.isInitCall]

theorem unsealVault_noJoinCall (env : Env) :
    (unsealVault env).1.any Action.isJoinCall = false := by
  rw [List.any_eq_false]
  intro a ha
  rcases mem_unsealVault ha with h | h | h | ⟨k, h⟩ | h | h <;>
    subst h <;> first | decide | simp [Action.isJoinCall]

theorem unsealVault_noJoinEntered (env : Env) :
    (unsealVault env).1.any (Action.isLog "Joining RAFT cluster...") = false := by
  rw [List.any_eq_false]
  intro a ha
  rcases mem_unsealVault ha with h | h | h | ⟨k, h⟩ | h | h <;>
    subst h <;> first | decide | simp [Action.isLog]

theorem unsealVault_noInitEntered (env : Env) :
    (unsealVault env).1.any (Action.isLog "Initializing vault server...") = false := by
  rw [List.any_eq_false]
  intro a ha
  rcases mem_unsealVault ha with h | h | h | ⟨k, h⟩ | h | h <;>
    subst h <;> first | decide | simp [Action.isLog]

/-! Tick structure helpers -/

theorem checkVaultStatus_trace_not_steady (env : Env) (h : HealthResponse)
    (h1 : env.healthResult = .ok h)
    (hns : (h.initialized && !h.sealed) = false) :
    (checkVaultStatus env).1 =
      [.log "Checking vault status", .healthCall, .log "Got vault status"]
      ++ (uninitStep env h).1
      ++ (if (uninitStep env h).2 = .ok then (sealedStep env h).1 else []) := by
  by_cases ho : (uninitStep env h).2 = .ok <;> simp [checkVaultStatus, h1, hns, ho]

theorem tail_any_false (env : Env) (h : HealthResponse) (p : Action → Bool)
    (hp : (unsealVault env).1.any p = false) :
    ((if (uninitStep env h).2 = .ok then (sealedStep env h).1 else []).any p) = false := by
  by_cases ho : (uninitStep env h).2 = .ok
  · by_cases hs : h.sealed <;> simp [sealedStep, hs, ho, hp]
  · simp [ho]

theorem leader_branch_marks (env : Env) (h : HealthResponse) (b : Nat)
    (h1 : env.healthResult = .ok h) (h2 : h.initialized = false)
    (hb : lastByte env.hostname = some b) (hz : (b : Int) - 48 = 0) :
    hasInitCall (checkVaultStatus env).1 = true ∧
    hasJoinCall (checkVaultStatus env).1 = false ∧
    joinEntered (checkVaultStatus env).1 = false := by
  have hns : (h.initialized && !h.sealed) = false := by simp [h2]
  have htr := checkVaultStatus_trace_not_steady env h h1 hns
  have hu : (uninitStep env h).1 = .log "Vault replica" :: (initializeVault env).1 := by
    simp only [uninitStep, h2, hb, Bool.false_eq_true, if_false]
    rw [if_pos hz]
  refine ⟨?_, ?_, ?_⟩
  · simp [hasInitCall, htr, hu, List.any_append, initializeVault_hasInit, Action.isInitCall]
  · simp [hasJoinCall, htr, hu, List.any_append, initializeVault_noJoinCall,
      tail_any_false env h _ (unsealVault_noJoinCall env), Action.isJoinCall]
  · simp [joinEntered, hasLog, htr, hu, List.any_append, initializeVault_noJoinEntered,
      tail_any_false env h _ (unsealVault_noJoinEntered env), Action.isLog]

theorem follower_branch_marks (env : Env) (h : HealthResponse) (b : Nat)
    (h1 : env.healthResult = .ok h) (h2 : h.initialized = false)
    (hb : lastByte env.hostname = some b) (hnz : (b : Int) - 48 ≠ 0) :
    joinEntered (checkVaultStatus env).1 = true ∧
    hasInitCall (checkVaultStatus env).1 = false ∧
    initEntered (checkVaultStatus env).1 = false := by
  have hns : (h.initialized && !h.sealed) = false := by simp [h2]
  have htr := checkVaultStatus_trace_not_steady env h h1 hns
  have hu : (uninitStep env h).1 = .log "Vault replica" :: (joinRaftCluster env).1 := by
    simp only [uninitStep, h2, hb, Bool.false_eq_true, if_false]
    rw [if_neg hnz]
  refine ⟨?_, ?_, ?_⟩
  · simp [joinEntered, hasLog, htr, hu, List.any_append, joinRaftCluster_entered, Action.isLog]
  · simp [hasInitCall, htr, hu, List.any_append, joinRaftCluster_noInitCall,
      tail_any_false env h _ (unsealVault_noInitCall env), Action.isInitCall]
  · simp [initEntered, hasLog, htr, hu, List.any_append, joinRaftCluster_noInitEntered,
      tail_any_false env h _ (unsealVault_noInitEntered env), Action.isLog]

/-! Claim theorems -/

/-- Claim C2: on a tick whose Health Snapshot is initialized and not
sealed, no remote mutating call (Initialize, Join, UnsealShard, Put) is
issued and the tick ends successfully; repeating ticks against the same
snapshot still produces no mutating calls. -/
theorem steady_state_no_mutation (env : Env) (h : HealthResponse)
    (h1 : env.healthResult = .ok h) (h2 : h.initialized = true) (h3 : h.sealed = false) :
    (checkVaultStatus env).2 = .ok ∧
    (checkVaultStatus env).1.countP Action.isMutating = 0 ∧
    ∀ n : Nat, (runTicks env n).countP Action.isMutating = 0 := by
  have e1 : checkVaultStatus env =
      ([.log "Checking vault status", .healthCall, .log "Got vault status",
        .log "Nothing to do"], .ok) := by
    simp [checkVaultStatus, h1, h2, h3]
  refine ⟨by simp [e1], by simp [e1]; decide, ?_⟩
  intro n
  induction n with
  | zero => simp [runTicks]
  | succ n ih =>
    simp [runTicks, e1, List.countP_append, ih, List.countP_cons, Action.isMutating]

theorem steady_state_no_mutation_witness :
    (c2Env.healthResult = .ok ⟨true, false⟩) ∧
    ((checkVaultStatus c2Env).2 = .ok ∧
     (checkVaultStatus c2Env).1.countP Action.isMutating = 0 ∧
     ∀ n : Nat, (runTicks c2Env n).countP Action.isMutating = 0) :=
  ⟨by decide, steady_state_no_mutation c2Env ⟨true, false⟩ (by decide) rfl rfl⟩

/-- Claim C4: a join-cluster call that returns without transport error
but reports joined=false makes the Join operation return an error, and
Join succeeds exactly when the response reports joined=true. -/
theorem join_success_flag_authoritative (env : Env) (ca cert key : String)
    (hca : parseEnvFile env.files env.config.raftLeaderCACert = .ok ca)
    (hcc : parseEnvFile env.files env.config.raftLeaderClientCert = .ok cert)
    (hck : parseEnvFile env.files env.config.raftLeaderClientKey = .ok key) :
    ((env.joinResult = .ok ⟨false⟩) → (joinRaftCluster env).2 = .err "could not join") ∧
    ((joinRaftCluster env).2 = .ok ↔ env.joinResult = .ok ⟨true⟩) := by
  refine ⟨fun hj => by simp [joinRaftCluster, hca, hcc, hck, hj], ?_, ?_⟩
  · intro hok
    cases hj : env.joinResult with
    | error e => simp [joinRaftCluster, hca, hcc, hck, hj] at hok
    | ok r =>
      rcases r with ⟨jb⟩
      cases jb with
      | false => simp [joinRaftCluster, hca, hcc, hck, hj] at hok
      | true => rfl
  · intro hj
    simp [joinRaftCluster, hca, hcc, hck, hj]

theorem join_success_flag_authoritative_witness :
    (parseEnvFile c4Env.files c4Env.config.raftLeaderCACert = .ok "" ∧
     c4Env.joinResult = .ok ⟨false⟩) ∧
    (((c4Env.joinResult = .ok ⟨false⟩) → (joinRaftCluster c4Env).2 = .err "could not join") ∧
     ((joinRaftCluster c4Env).2 = .ok ↔ c4Env.joinResult = .ok ⟨true⟩)) :=
  ⟨by decide,
   join_success_flag_authoritative c4Env "" "" "" (by decide) (by decide) (by decide)⟩

/-- Claim C6: before any tick the orchestrator checks that the
configured secret exists (DescribeSecret); on failure the process exits
fatally, performing no health check and no bootstrap action, for any
number of scheduled ticks. -/
theorem startup_existence_check_fatal (env : Env) (n : Nat) (e : String)
    (hd : env.describeResult = .error e) :
    (∀ (env2 : Env) (n2 : Nat),
      (runMain env2 n2).1.head? = some (.describeCall env2.config.secretsManagerSecretID)) ∧
    (runMain env n).1 = [.describeCall env.config.secretsManagerSecretID] ∧
    (runMain env n).2 = .fatal ("Checking secret existence: describe secret: " ++ e) := by
  refine ⟨?_, ?_, ?_⟩
  · intro env2 n2
    cases hd2 : env2.describeResult with
    | error e2 => simp [runMain, hd2, checkSecretExistence]
    | ok arn => simp [runMain, hd2, checkSecretExistence]
  · simp [runMain, hd, checkSecretExistence]
  · simp [runMain, hd, checkSecretExistence]

theorem startup_existence_check_fatal_witness :
    (c6Env.describeResult = .error "AccessDeniedException") ∧
    ((∀ (env2 : Env) (n2 : Nat),
       (runMain env2 n2).1.head? = some (.describeCall env2.config.secretsManagerSecretID)) ∧
     (runMain c6Env 4).1 = [.describeCall c6Env.config.secretsManagerSecretID] ∧
     (runMain c6Env 4).2 =
       .fatal ("Checking secret existence: describe secret: " ++ "AccessDeniedException")) :=
  ⟨by decide, startup_existence_check_fatal c6Env 4 "AccessDeniedException" (by decide)⟩

/-- Claim C10: when the stored bundle deserializes to zero key shares,
Unseal makes no unseal-shard call, logs that the server was unsealed,
and returns success. -/
theorem unseal_empty_bundle (env : Env) (v : SecretValue) (ir : InitResponse)
    (hget : env.getSecretResult = .ok (some v))
    (hun : unmarshalInitResponse v = .ok ir)
    (hkeys : ir.keysB64 = []) :
    (unsealVault env).2 = .ok ∧
    hasUnsealCall (unsealVault env).1 = false ∧
    hasLog "Vault server unsealed successfully" (unsealVault env).1 = true := by
  have hl : unsealLoop env.unsealResults ir.keysB64 0 = ([], .ok) := by
    rw [hkeys]; rfl
  refine ⟨?_, ?_, ?_⟩ <;>
    simp [unsealVault, hget, hun, hl, hasUnsealCall, hasLog, Action.isUnsealCall, Action.isLog]

theorem unseal_empty_bundle_witness :
    (c10Env.getSecretResult = .ok (some (.jsonObj [("root_token", .str "tok")])) ∧
     unmarshalInitResponse (.jsonObj [("root_token", .str "tok")]) =
       .ok ⟨[], [], [], [], "tok"⟩) ∧
    ((unsealVault c10Env).2 = .ok ∧
     hasUnsealCall (unsealVault c10Env).1 = false ∧
     hasLog "Vault server unsealed successfully" (unsealVault c10Env).1 = true) :=
  ⟨by decide,
   unseal_empty_bundle c10Env (.jsonObj [("root_token", .str "tok")])
     ⟨[], [], [], [], "tok"⟩ (by decide) (by decide) (by decide)⟩

/-- Claim C8: the Bootstrap Credential Bundle Initialize writes is the
serialization of the init response, and deserializing it (as Unseal
does) returns the identical bundle, in particular byte-identical base64
key shares in the same order. -/
theorem bundle_round_trip (env : Env) (ir : InitResponse)
    (o : Except String UpdateSecretOutput) (rest : List (Except String UpdateSecretOutput))
    (hinit : env.initResult = .ok ir)
    (hputs : env.putResults = o :: rest) :
    (Action.putCall env.config.secretsManagerSecretID (marshalInitResponse ir)
      ∈ (initializeVault env).1) ∧
    unmarshalInitResponse (marshalInitResponse ir) = .ok ir := by
  refine ⟨?_, rfl⟩
  cases o with
  | ok u =>
    simp [initializeVault, hinit, hputs, updateSecretLoop]
  | error e =>
    by_cases hr : (updateSecretLoop env.config.secretsManagerSecretID
        (marshalInitResponse ir) rest).2 = .ok <;>
      simp [initializeVault, hinit, hputs, updateSecretLoop, hr]

theorem bundle_round_trip_witness :
    (c8Env.initResult = .ok c8IR ∧ c8Env.putResults = [.ok ⟨"arn", "v1"⟩]) ∧
    ((Action.putCall c8Env.config.secretsManagerSecretID (marshalInitResponse c8IR)
       ∈ (initializeVault c8Env).1) ∧
     unmarshalInitResponse (marshalInitResponse c8IR) = .ok c8IR) :=
  ⟨by decide, bundle_round_trip c8Env c8IR (.ok ⟨"arn", "v1"⟩) [] (by decide) (by decide)⟩

/-- Claim C1: on a tick with initialized=false the replica role comes
from the hostname last byte minus 48; ordinal 0 attempts Initialize and
never enters Join, any other ordinal attempts Join and never calls or
enters Initialize. -/
theorem uninit_role_dispatch (env : Env) (h : HealthResponse) (b : Nat)
    (h1 : env.healthResult = .ok h) (h2 : h.initialized = false)
    (hb : lastByte env.hostname = some b) :
    (((b : Int) - 48 = 0) →
      hasInitCall (checkVaultStatus env).1 = true ∧
      hasJoinCall (checkVaultStatus env).1 = false ∧
      joinEntered (checkVaultStatus env).1 = false) ∧
    (((b : Int) - 48 ≠ 0) →
      joinEntered (checkVaultStatus env).1 = true ∧
      hasInitCall (checkVaultStatus env).1 = false ∧
      initEntered (checkVaultStatus env).1 = false) :=
  ⟨fun hz => leader_branch_marks env h b h1 h2 hb hz,
   fun hnz => follower_branch_marks env h b h1 h2 hb hnz⟩

theorem uninit_role_dispatch_witness :
    (c1Env.healthResult = .ok ⟨false, false⟩ ∧ lastByte c1Env.hostname = some 48) ∧
    (((((48 : Nat) : Int) - 48 = 0) →
       hasInitCall (checkVaultStatus c1Env).1 = true ∧
       hasJoinCall (checkVaultStatus c1Env).1 = false ∧
       joinEntered (checkVaultStatus c1Env).1 = false) ∧
     ((((48 : Nat) : Int) - 48 ≠ 0) →
       joinEntered (checkVaultStatus c1Env).1 = true ∧
       hasInitCall (checkVaultStatus c1Env).1 = false ∧
       initEntered (checkVaultStatus c1Env).1 = false)) :=
  ⟨by decide, uninit_role_dispatch c1Env ⟨false, false⟩ 48 (by decide) rfl (by decide)⟩

/-- Claim C9: role resolution is partial: with initialized=false, an
empty HOSTNAME panics (index out of range) rather than returning an
error, and a non-digit trailing byte yields a nonzero ordinal that
silently takes the follower Join path. -/
theorem replica_resolution_edge_cases (env : Env) (h : HealthResponse)
    (h1 : env.healthResult = .ok h) (h2 : h.initialized = false) :
    (env.hostname = "" → (checkVaultStatus env).2 = .panicked "index out of range") ∧
    (∀ b, lastByte env.hostname = some b → (b < 48 ∨ 57 < b) →
      ((b : Int) - 48 ≠ 0) ∧
      joinEntered (checkVaultStatus env).1 = true ∧
      hasInitCall (checkVaultStatus env).1 = false) := by
  constructor
  · intro hh
    have hlb : lastByte env.hostname = none := by rw [hh]; rfl
    have hns : (h.initialized && !h.sealed) = false := by simp [h2]
    have hu : uninitStep env h = ([], .panicked "index out of range") := by
      simp [uninitStep, h2, hlb]
    simp [checkVaultStatus, h1, hns, hu]
  · intro b hb hnd
    have hnz : (b : Int) - 48 ≠ 0 := by rcases hnd with hlt | hgt <;> omega
    have hf := follower_branch_marks env h b h1 h2 hb hnz
    exact ⟨hnz, hf.1, hf.2.1⟩

theorem replica_resolution_edge_cases_witness :
    (c9Env.healthResult = .ok ⟨false, true⟩ ∧ c9Env.hostname = "") ∧
    ((c9Env.hostname = "" → (checkVaultStatus c9Env).2 = .panicked "index out of range") ∧
     (∀ b, lastByte c9Env.hostname = some b → (b < 48 ∨ 57 < b) →
       ((b : Int) - 48 ≠ 0) ∧
       joinEntered (checkVaultStatus c9Env).1 = true ∧
       hasInitCall (checkVaultStatus c9Env).1 = false)) :=
  ⟨by decide, replica_resolution_edge_cases c9Env ⟨false, true⟩ (by decide) rfl⟩

/-- Claim C7: with initialized=false and sealed=true, after the
uninitialized branch succeeds (Initialize for ordinal 0, Join
otherwise) the same tick goes on to attempt Unseal. -/
theorem same_tick_unseal_after_bootstrap (env : Env) (h : HealthResponse) (b : Nat)
    (h1 : env.healthResult = .ok h) (h2 : h.initialized = false) (h3 : h.sealed = true)
    (hb : lastByte env.hostname = some b)
    (hbr : (if (b : Int) - 48 = 0 then (initializeVault env).2
            else (joinRaftCluster env).2) = .ok) :
    unsealEntered (checkVaultStatus env).1 = true := by
  have hns : (h.initialized && !h.sealed) = false := by simp [h2]
  have htr := checkVaultStatus_trace_not_steady env h h1 hns
  by_cases hz : (b : Int) - 48 = 0
  · rw [if_pos hz] at hbr
    have hu2 : (uninitStep env h).2 = .ok := by
      simp only [uninitStep, h2, Bool.false_eq_true, if_false, hb]
      rw [if_pos hz]
      simp [hbr, wrapErr]
    simp [unsealEntered, hasLog, htr, hu2, List.any_append, sealedStep, h3,
      unsealVault_entered, Action.isLog]
  · rw [if_neg hz] at hbr
    have hu2 : (uninitStep env h).2 = .ok := by
      simp only [uninitStep, h2, Bool.false_eq_true, if_false, hb]
      rw [if_neg hz]
      simp [hbr, wrapErr]
    simp [unsealEntered, hasLog, htr, hu2, List.any_append, sealedStep, h3,
      unsealVault_entered, Action.isLog]

theorem same_tick_unseal_after_bootstrap_witness :
    (c7Env.healthResult = .ok ⟨false, true⟩ ∧
     (if ((48 : Nat) : Int) - 48 = 0 then (initializeVault c7Env).2
      else (joinRaftCluster c7Env).2) = .ok) ∧
    unsealEntered (checkVaultStatus c7Env).1 = true :=
  ⟨by decide,
   same_tick_unseal_after_bootstrap c7Env ⟨false, true⟩ 48 (by decide) rfl rfl (by decide)
     (by decide)⟩

/-- Claim C3: Unseal submits stored shares in order, one at a time, and
stops exactly at the first share whose returned progress is
non-positive, leaving the remaining shares unsubmitted: the submitted
keys are precisely the first k+1 stored keys. -/
theorem unseal_stops_at_threshold (env : Env) (v : SecretValue) (ir : InitResponse) (k : Nat)
    (hget : env.getSecretResult = .ok (some v))
    (hun : unmarshalInitResponse v = .ok ir)
    (hk : k < ir.keysB64.length)
    (hpos : ∀ j, j < k → ∃ st, env.unsealResults j = .ok st ∧ 0 < st.progress)
    (hzero : ∃ st, env.unsealResults k = .ok st ∧ st.progress ≤ 0) :
    submittedKeys (unsealVault env).1 = ir.keysB64.take (k + 1) ∧
    (unsealVault env).2 = .ok := by
  have hs := unsealLoop_spec k ir.keysB64 0 env.unsealResults hk
    (fun j hj => by simpa using hpos j hj)
    (by simpa using hzero)
  have hv : (unsealVault env).1 =
      [.log "Fetching unseal keys...", .getCall env.config.secretsManagerSecretID,
       .log "Unseal keys received, unsealing vault server..."]
      ++ (unsealLoop env.unsealResults ir.keysB64 0).1
      ++ [.log "Vault server unsealed successfully"] := by
    simp [unsealVault, hget, hun, hs.2]
  constructor
  · rw [hv]
    have h1 := hs.1
    simp only [submittedKeys, List.filterMap_append, List.filterMap_cons,
      List.filterMap_nil] at h1 ⊢
    simpa using h1
  · simp [unsealVault, hget, hun, hs.2]

theorem unseal_stops_at_threshold_witness :
    (c3Env.getSecretResult = .ok (some (marshalInitResponse c3IR)) ∧
     unmarshalInitResponse (marshalInitResponse c3IR) = .ok c3IR ∧
     2 < c3IR.keysB64.length) ∧
    (submittedKeys (unsealVault c3Env).1 = c3IR.keysB64.take 3 ∧
     (unsealVault c3Env).2 = .ok) :=
  ⟨by decide,
   unseal_stops_at_threshold c3Env (marshalInitResponse c3IR) c3IR 2 (by decide) (by decide)
     (by decide)
     (fun j hj => ⟨⟨2 - (j : Int)⟩, rfl, by show 0 < 2 - (j : Int); omega⟩)
     ⟨⟨0⟩, by decide, by decide⟩⟩

/-- Claim C5: after a successful initialize call the bundle write is
retried with a 3-second sleep after each failure and never abandoned:
with m failures before the first success there are exactly m+1 put
attempts, m logged failures, m sleeps, and Initialize returns success. -/
theorem persist_bundle_retry (env : Env) (ir : InitResponse) (e : String)
    (u : UpdateSecretOutput) (rest : List (Except String UpdateSecretOutput)) (m : Nat)
    (hinit : env.initResult = .ok ir)
    (hputs : env.putResults = List.replicate m (.error e) ++ .ok u :: rest) :
    (initializeVault env).2 = .ok ∧
    (initializeVault env).1.countP Action.isPutCall = m + 1 ∧
    (initializeVault env).1.countP Action.isCannotUpdateLog = m ∧
    (initializeVault env).1.countP Action.isSleep3 = m ∧
    hasLog "Updated secret" (initializeVault env).1 = true := by
  have hs := updateSecretLoop_spec env.config.secretsManagerSecretID
    (marshalInitResponse ir) e u rest m
  have hiv : initializeVault env =
      ([.log "Initializing vault server...",
        .initCall env.config.vaultSecretShares env.config.vaultSecretThreshold,
        .log "Vault server initialized successfully, uploading result to AWS..."]
        ++ (updateSecretLoop env.config.secretsManagerSecretID (marshalInitResponse ir)
            (List.replicate m (.error e) ++ .ok u :: rest)).1
        ++ [.log "Initialization process completed"], .ok) := by
    simp [initializeVault, hinit, hputs, hs.1]
  refine ⟨by simp [hiv], ?_, ?_, ?_, ?_⟩
  · simp [hiv, List.countP_append, List.countP_cons, Action.isPutCall, hs.2.1]
  · simp [hiv, List.countP_append, List.countP_cons, Action.isCannotUpdateLog, hs.2.2.1]
  · simp [hiv, List.countP_append, List.countP_cons, Action.isSleep3, hs.2.2.2.1]
  · have h4 := hs.2.2.2.2
    simp only [hasLog] at h4
    simp [hiv, hasLog, List.any_append, h4]

theorem persist_bundle_retry_witness :
    (c5Env.initResult = .ok c5IR ∧
     c5Env.putResults = List.replicate 2 (.error "Denied") ++ .ok ⟨"arn", "v3"⟩ :: []) ∧
    ((initializeVault c5Env).2 = .ok ∧
     (initializeVault c5Env).1.countP Action.isPutCall = 3 ∧
     (initializeVault c5Env).1.countP Action.isCannotUpdateLog = 2 ∧
     (initializeVault c5Env).1.countP Action.isSleep3 = 2 ∧
     hasLog "Updated secret" (initializeVault c5Env).1 = true) :=
  ⟨by decide,
   persist_bundle_retry c5Env c5IR "Denied" ⟨"arn", "v3"⟩ [] 2 (by decide) (by decide)⟩

end VaultInit
